import Mathlib

/-!
Verification of the change-stream resume engine of the mongo-go-driver
repository.  The repository ships the engine's behavioural test suite
(mongo/integration/change_stream_test.go); the engine itself is modelled
here from the design specification (spec.md), as a shallow embedding:
a deterministic state machine driven by a script of server responses.
Each command the engine issues (aggregate, getMore, killCursors) consumes
the next response of the script — exactly the shape of the mock server
used by the tests (mtest.AddMockResponses) — and is recorded in a trace,
so that claims about *which* commands a `Next` call performs are provable.
-/

namespace ChangeStream

/-- Resume tokens are opaque *ordered* documents; modelled as naturals so
that "token strictly later than" is `<`. -/
abbrev Token := Nat

/-- Modelled from the spec: a change event document.  `id?` is the
identifying key (the `_id` resume token of the document), absent when a
user pipeline stage (e.g. `$project`) strips it; `payload` stands for the
rest of the document. -/
structure ChangeDoc where
  id? : Option Token
  payload : Nat
  deriving Repr, DecidableEq

/-- A failure returned by the server / transport: either a network-level
failure or a command failure carrying a numeric error code. -/
inductive Failure where
  | network
  | command (code : Int)
  deriving Repr, DecidableEq

/-- Errors surfaced to the caller through `Err()`.  `noResponse` is a model
artifact standing for a blocked call (the response script ran out). -/
inductive StreamError where
  | cmdFailure (f : Failure)
  | missingResumeToken
  | noResponse
  deriving Repr, DecidableEq

/-- Modelled from the spec: the fixed non-resumable code set —
Interrupted (11601), CappedPositionLost (136), CursorKilled (237). -/
def nonResumableCodes : List Int := [11601, 136, 237]

/-- Modelled from the spec: the Error Classifier for getMore failures.
A network failure is always resumable; a command failure is resumable
unless its code is in the fixed non-resumable set. -/
def isResumable : Failure → Bool
  | .network => true
  | .command c => !(nonResumableCodes.contains c)

/-- The positional mode of the resume state. -/
inductive PositionMode where
  | resumeAfterMode
  | startAfterMode
  | opTimeMode
  | noMode
  deriving Repr, DecidableEq

/-- Modelled from the spec: immutable construction-time options.  User
pipeline stages other than the change-stream stage are opaque (naturals). -/
structure CSOptions where
  userPipeline : List Nat
  initialToken : Option Token
  initialMode : PositionMode
  initialOpTime : Option Nat
  maxAwaitTimeMS : Option Nat
  deriving Repr, DecidableEq

/-- Modelled from the spec: the mutable ResumeState owned by one engine. -/
structure ResumeState where
  resumeToken : Option Token
  positionMode : PositionMode
  operationTime : Option Nat
  hasIterated : Bool
  deriving Repr, DecidableEq

/-- The positional option carried in the body of the `$changeStream` stage. -/
inductive PositionOpt where
  | resumeAfterOpt (t : Token)
  | startAfterOpt (t : Token)
  | startAtOpTime (ts : Nat)
  | noPos
  deriving Repr, DecidableEq

/-- A full aggregation pipeline: the `$changeStream` stage (always first)
with its positional option, followed by the user stages unmodified. -/
structure Pipeline where
  csOption : PositionOpt
  userStages : List Nat
  deriving Repr, DecidableEq

/-- Modelled from the spec: which positional option the Pipeline Builder
puts in the `$changeStream` stage.  Once iteration has occurred the
remembered token always wins, as `resumeAfter`; before that, the
construction mode decides; with no token, a remembered operation time
yields `startAtOperationTime`. -/
def buildCsOption (rs : ResumeState) : PositionOpt :=
  match rs.resumeToken with
  | some t =>
    if rs.hasIterated then .resumeAfterOpt t
    else
      match rs.positionMode with
      | .startAfterMode => .startAfterOpt t
      | _ => .resumeAfterOpt t
  | none =>
    match rs.operationTime with
    | some ts => .startAtOpTime ts
    | none => .noPos

/-- Modelled from the spec: the Pipeline Builder — prepend the
change-stream stage, append user stages in order. -/
def build (userPipeline : List Nat) (rs : ResumeState) : Pipeline :=
  { csOption := buildCsOption rs, userStages := userPipeline }

/-- A wire command issued by the engine.  Both aggregate and getMore carry
an (optional) `maxTimeMS` field so that the claim "maxAwaitTimeMS maps to
getMore's maxTimeMS and never appears on aggregate" is expressible. -/
inductive Cmd where
  | aggregate (p : Pipeline) (maxTimeMS : Option Nat)
  | getMore (cursorId : Nat) (maxTimeMS : Option Nat)
  | killCursors (cursorId : Nat)
  deriving Repr, DecidableEq

/-- A successful cursor response: cursor id, batch, and optional
post-batch resume token (absent on servers without PBRT support). -/
structure CursorResult where
  cursorId : Nat
  batch : List ChangeDoc
  pbrt : Option Token
  deriving Repr, DecidableEq

/-- One scripted server response. -/
inductive Response where
  | cursor (r : CursorResult)
  | error (f : Failure)
  | ok
  deriving Repr, DecidableEq

/-- Modelled from the spec: the engine's control state.  `streaming` is the
spec's Open state; the Resuming state is split into its two sequential
command phases (best-effort killCursors, then the fresh aggregate). -/
inductive Phase where
  | streaming
  | killingCursor
  | resumeAggregate
  deriving Repr, DecidableEq

/-- Modelled from the spec: the Change Stream Engine state. -/
structure Engine where
  rs : ResumeState
  opts : CSOptions
  cursorId : Nat
  buffer : List ChangeDoc
  pendingPbrt : Option Token
  current : Option ChangeDoc
  err : Option StreamError
  phase : Phase
  deriving Repr, DecidableEq

/-- The caller-facing `ID()` accessor (cursor identifier). -/
def Engine.ID (e : Engine) : Nat := e.cursorId

/-- The caller-facing `ResumeToken()` accessor. -/
def Engine.resumeTokenAcc (e : Engine) : Option Token := e.rs.resumeToken

/-- The ResumeState seeded at construction from the user options. -/
def initialResumeState (o : CSOptions) : ResumeState :=
  { resumeToken := o.initialToken, positionMode := o.initialMode
    operationTime := o.initialOpTime, hasIterated := false }

/-- Modelled from the spec: when a batch is (already) empty and the server
reported a PBRT, overwrite the resume token with the PBRT. -/
def absorbPbrt (e : Engine) : Engine :=
  match e.buffer, e.pendingPbrt with
  | [], some p => { e with rs := { e.rs with resumeToken := some p } }
  | _, _ => e

/-- The token stored after consuming a document whose key is `tid`: the
batch's PBRT when this was the last document of the batch and a PBRT is
present, the document's own key otherwise. -/
def nextToken (tid : Token) (rest : List ChangeDoc) (pbrt : Option Token) : Token :=
  match rest, pbrt with
  | [], some p => p
  | _, _ => tid

/-- Modelled from the spec: consume one buffered document.  A document
missing its identifying key is a terminal failure (the tracker cannot form
a position); otherwise the token is updated and the document becomes
`current`. -/
def popDoc (e : Engine) (d : ChangeDoc) (rest : List ChangeDoc) : Bool × Engine :=
  match d.id? with
  | none => (false, { e with buffer := rest, err := some .missingResumeToken })
  | some tid =>
    (true,
      { e with
        buffer := rest
        current := some d
        rs := { e.rs with
                resumeToken := some (nextToken tid rest e.pendingPbrt)
                hasIterated := true } })

/-- Outcome of one command/response exchange: the `Next` call is done with
answer `b`, or it continues with the updated engine. -/
inductive StepOut where
  | done (b : Bool) (e : Engine)
  | cont (e : Engine)
  deriving Repr

/-- The engine carried by a `StepOut`. -/
def StepOut.engine : StepOut → Engine
  | .done _ e => e
  | .cont e => e

/-- Install a fresh cursor response: adopt the new cursor id, batch and
PBRT; deliver the first document if there is one, otherwise absorb the
PBRT and continue (blocking wait). -/
def deliver (e : Engine) (cr : CursorResult) : StepOut :=
  match cr.batch with
  | [] =>
    .cont (absorbPbrt
      { e with
        cursorId := cr.cursorId
        buffer := []
        pendingPbrt := cr.pbrt
        phase := .streaming })
  | d :: rest =>
    match popDoc
        { e with
          cursorId := cr.cursorId
          buffer := cr.batch
          pendingPbrt := cr.pbrt
          phase := .streaming } d rest with
    | (b, e2) => .done b e2

/-- Modelled from the spec: one command/response exchange of the engine's
state machine.  In `streaming` with an exhausted buffer the engine issues a
getMore (carrying maxAwaitTimeMS as maxTimeMS); a resumable failure enters
the resume process: a best-effort killCursors whose response is ignored
entirely, then a fresh aggregate built from the current ResumeState, whose
failure is terminal. -/
def step (e : Engine) (resp : Response) : Cmd × StepOut :=
  match e.phase with
  | .streaming =>
    (Cmd.getMore e.cursorId e.opts.maxAwaitTimeMS,
     match resp with
     | .cursor cr => deliver e cr
     | .error f =>
       if isResumable f then .cont { e with phase := .killingCursor }
       else .done false { e with err := some (.cmdFailure f) }
     | .ok => .done false { e with err := some .noResponse })
  | .killingCursor =>
    (Cmd.killCursors e.cursorId, .cont { e with phase := .resumeAggregate })
  | .resumeAggregate =>
    (Cmd.aggregate (build e.opts.userPipeline e.rs) none,
     match resp with
     | .cursor cr => deliver e cr
     | .error f => .done false { e with err := some (.cmdFailure f), phase := .streaming }
     | .ok => .done false { e with err := some .noResponse })

/-- Modelled from the spec: one blocking `Next` call, driven by the
response script.  Returns the answer, the final engine, and the trace of
commands issued during this call.  A buffered document is returned without
any wire activity; an exhausted script is the model's stand-in for a call
that blocks forever (`noResponse`). -/
def runNext (e : Engine) : List Response → Bool × Engine × List Cmd
  | [] =>
    if e.err.isSome then (false, e, [])
    else
      match e.phase, e.buffer with
      | .streaming, d :: rest => ((popDoc e d rest).1, (popDoc e d rest).2, [])
      | _, _ => (false, { e with err := some .noResponse }, [])
  | resp :: srest =>
    if e.err.isSome then (false, e, [])
    else
      match e.phase, e.buffer with
      | .streaming, d :: rest => ((popDoc e d rest).1, (popDoc e d rest).2, [])
      | _, _ =>
        match (step e resp).2 with
        | .done b e' => (b, e', [(step e resp).1])
        | .cont e' =>
          ((runNext e' srest).1, (runNext e' srest).2.1,
            (step e resp).1 :: (runNext e' srest).2.2)

/-- Modelled from the spec: the maxAwaitTime-bounded single poll (TryNext):
one empty getMore yields a "no data yet" result rather than looping.  The
poll performs at most one command/response exchange. -/
def tryNext (e : Engine) (script : List Response) : Bool × Engine × List Cmd :=
  match script with
  | [] =>
    if e.err.isSome then (false, e, [])
    else
      match e.phase, e.buffer with
      | .streaming, d :: rest => ((popDoc e d rest).1, (popDoc e d rest).2, [])
      | _, _ => (false, { e with err := some .noResponse }, [])
  | resp :: _ =>
    if e.err.isSome then (false, e, [])
    else
      match e.phase, e.buffer with
      | .streaming, d :: rest => ((popDoc e d rest).1, (popDoc e d rest).2, [])
      | _, _ =>
        match (step e resp).2 with
        | .done b e' => (b, e', [(step e resp).1])
        | .cont e' => (false, e', [(step e resp).1])

/-- Modelled from the spec: construction (`Watch`).  Build the initial
pipeline from the seeded ResumeState, issue one aggregate (never carrying
maxTimeMS), and surface any failure verbatim — construction never resumes.
On success the firstBatch becomes the buffer and an empty firstBatch
absorbs the reported PBRT.  (A malformed `ok` reply is mapped to a network
failure, a model artifact.) -/
def watch (o : CSOptions) (resp : Response) : Except Failure Engine × List Cmd :=
  (match resp with
   | .error f => .error f
   | .ok => .error .network
   | .cursor cr =>
     .ok (absorbPbrt
       { rs := initialResumeState o, opts := o, cursorId := cr.cursorId
         buffer := cr.batch, pendingPbrt := cr.pbrt, current := none
         err := none, phase := .streaming }),
   [Cmd.aggregate (build o.userPipeline (initialResumeState o)) none])

/-- A freshly open, non-errored engine in the streaming phase, with the
given resume state, options, cursor id, buffer, pending PBRT and current
document. -/
def mkEngine (rs : ResumeState) (o : CSOptions) (cid : Nat)
    (buf : List ChangeDoc) (pp : Option Token) (cur : Option ChangeDoc) : Engine :=
  { rs := rs, opts := o, cursorId := cid, buffer := buf, pendingPbrt := pp
    current := cur, err := none, phase := .streaming }

/-- The wire-level obligation on a single command when the user supplied
`mt` as maxAwaitTimeMS: getMore carries exactly `mt` as maxTimeMS, and
aggregate never carries a maxTimeMS at all. -/
def cmdRespectsMaxAwait (mt : Option Nat) : Cmd → Prop
  | .aggregate _ m => m = none
  | .getMore _ m => m = mt
  | .killCursors _ => True

/-- Claim C1: after a resumable getMore failure on a stream whose last
observed token is `t`, a single `Next` call performs exactly one resume
cycle — one (failing) getMore, one killCursors, one fresh aggregate, and
no further command — and returns `true` with the new document, the stored
resume token being the new document's key `t' > t`.  The killCursors
response `kcResp` is arbitrary and the trace is an exact three-element
list, so no further wire activity happens. -/
theorem resume_once_cycle (rs : ResumeState) (o : CSOptions) (cid : Nat)
    (pp : Option Token) (cur : Option ChangeDoc) (t t' : Token) (f : Failure)
    (kcResp : Response) (cr : CursorResult) (d : ChangeDoc)
    (ht : rs.resumeToken = some t) (hf : isResumable f = true)
    (hcr : cr.batch = [d]) (hpbrt : cr.pbrt = none)
    (hd : d.id? = some t') (hlt : t < t') :
    (runNext (mkEngine rs o cid [] pp cur) [.error f, kcResp, .cursor cr]).1 = true ∧
    (runNext (mkEngine rs o cid [] pp cur) [.error f, kcResp, .cursor cr]).2.1.current
      = some d ∧
    (runNext (mkEngine rs o cid [] pp cur) [.error f, kcResp, .cursor cr]).2.1.rs.resumeToken
      = some t' ∧
    t < t' ∧
    (runNext (mkEngine rs o cid [] pp cur) [.error f, kcResp, .cursor cr]).2.2
      = [Cmd.getMore cid o.maxAwaitTimeMS, Cmd.killCursors cid,
         Cmd.aggregate (build o.userPipeline rs) none] := by
  refine ⟨?_, ?_, ?_, hlt, ?_⟩ <;>
    simp [runNext, step, deliver, popDoc, nextToken, mkEngine, hf, hcr, hpbrt, hd]

/-- Witness for C1: concrete resume cycle — token 1 observed, network
failure on getMore, resumed aggregate delivers a document with key 2. -/
theorem resume_once_cycle_witness :
    (runNext (mkEngine ⟨some 1, .noMode, none, true⟩ ⟨[], none, .noMode, none, none⟩ 7 [] none none)
        [.error .network, .ok, .cursor ⟨9, [⟨some 2, 0⟩], none⟩]).1 = true ∧
    (runNext (mkEngine ⟨some 1, .noMode, none, true⟩ ⟨[], none, .noMode, none, none⟩ 7 [] none none)
        [.error .network, .ok, .cursor ⟨9, [⟨some 2, 0⟩], none⟩]).2.1.current
      = some ⟨some 2, 0⟩ ∧
    (runNext (mkEngine ⟨some 1, .noMode, none, true⟩ ⟨[], none, .noMode, none, none⟩ 7 [] none none)
        [.error .network, .ok, .cursor ⟨9, [⟨some 2, 0⟩], none⟩]).2.1.rs.resumeToken
      = some 2 ∧
    1 < 2 ∧
    (runNext (mkEngine ⟨some 1, .noMode, none, true⟩ ⟨[], none, .noMode, none, none⟩ 7 [] none none)
        [.error .network, .ok, .cursor ⟨9, [⟨some 2, 0⟩], none⟩]).2.2
      = [Cmd.getMore 7 none, Cmd.killCursors 7,
         Cmd.aggregate (build [] ⟨some 1, .noMode, none, true⟩) none] :=
  resume_once_cycle ⟨some 1, .noMode, none, true⟩ ⟨[], none, .noMode, none, none⟩ 7 none none
    1 2 .network .ok ⟨9, [⟨some 2, 0⟩], none⟩ ⟨some 2, 0⟩ rfl rfl rfl rfl rfl (by decide)

/-- Claim C2: a getMore command failure whose code is in the non-resumable
set {11601, 136, 237} makes `Next` return false, sets `Err()` to a command
failure carrying exactly that code, and issues no further command at all
(in particular no second aggregate): the trace is just the failing
getMore, whatever responses `srest` would still be available. -/
theorem nonresumable_code_fatal (rs : ResumeState) (o : CSOptions) (cid : Nat)
    (pp : Option Token) (cur : Option ChangeDoc) (c : Int) (srest : List Response)
    (hc : c ∈ nonResumableCodes) :
    (runNext (mkEngine rs o cid [] pp cur) (.error (.command c) :: srest)).1 = false ∧
    (runNext (mkEngine rs o cid [] pp cur) (.error (.command c) :: srest)).2.1.err
      = some (.cmdFailure (.command c)) ∧
    (runNext (mkEngine rs o cid [] pp cur) (.error (.command c) :: srest)).2.2
      = [Cmd.getMore cid o.maxAwaitTimeMS] := by
  have hres : isResumable (.command c) = false := by
    simp only [nonResumableCodes, List.mem_cons, List.not_mem_nil, or_false] at hc
    rcases hc with h | h | h <;> subst h <;> decide
  refine ⟨?_, ?_, ?_⟩ <;> simp [runNext, step, mkEngine, hres]

/-- Witness for C2: getMore fails with code 11601 (Interrupted); `Next` is
false, the error carries 11601, and only the getMore was issued. -/
theorem nonresumable_code_fatal_witness :
    (runNext (mkEngine ⟨some 1, .noMode, none, true⟩ ⟨[], none, .noMode, none, none⟩ 7 [] none none)
        [.error (.command 11601), .ok, .ok]).1 = false ∧
    (runNext (mkEngine ⟨some 1, .noMode, none, true⟩ ⟨[], none, .noMode, none, none⟩ 7 [] none none)
        [.error (.command 11601), .ok, .ok]).2.1.err
      = some (.cmdFailure (.command 11601)) ∧
    (runNext (mkEngine ⟨some 1, .noMode, none, true⟩ ⟨[], none, .noMode, none, none⟩ 7 [] none none)
        [.error (.command 11601), .ok, .ok]).2.2
      = [Cmd.getMore 7 none] :=
  nonresumable_code_fatal ⟨some 1, .noMode, none, true⟩ ⟨[], none, .noMode, none, none⟩ 7
    none none 11601 [.ok, .ok] (by decide)

/-- Claim C3: when the aggregate re-issued during a resume itself fails —
with any failure `f2`, including one whose code would be resumable on a
getMore — `Next` returns false, `Err()` carries that second failure, and
the trace stops at the resume's aggregate: no third aggregate (no second
resume attempt) is issued, whatever responses `srest` remain available. -/
theorem resumed_aggregate_failure_terminal (rs : ResumeState) (o : CSOptions) (cid : Nat)
    (pp : Option Token) (cur : Option ChangeDoc) (f f2 : Failure)
    (kcResp : Response) (srest : List Response)
    (hf : isResumable f = true) :
    (runNext (mkEngine rs o cid [] pp cur) (.error f :: kcResp :: .error f2 :: srest)).1
      = false ∧
    (runNext (mkEngine rs o cid [] pp cur) (.error f :: kcResp :: .error f2 :: srest)).2.1.err
      = some (.cmdFailure f2) ∧
    (runNext (mkEngine rs o cid [] pp cur) (.error f :: kcResp :: .error f2 :: srest)).2.2
      = [Cmd.getMore cid o.maxAwaitTimeMS, Cmd.killCursors cid,
         Cmd.aggregate (build o.userPipeline rs) none] := by
  refine ⟨?_, ?_, ?_⟩ <;> simp [runNext, step, mkEngine, hf]

/-- Witness for C3: the resumed aggregate fails with code 11602 — a code
that would be resumable on getMore — yet the failure is terminal. -/
theorem resumed_aggregate_failure_terminal_witness :
    (runNext (mkEngine ⟨some 1, .noMode, none, true⟩ ⟨[], none, .noMode, none, none⟩ 7 [] none none)
        [.error .network, .ok, .error (.command 11602), .ok]).1 = false ∧
    (runNext (mkEngine ⟨some 1, .noMode, none, true⟩ ⟨[], none, .noMode, none, none⟩ 7 [] none none)
        [.error .network, .ok, .error (.command 11602), .ok]).2.1.err
      = some (.cmdFailure (.command 11602)) ∧
    (runNext (mkEngine ⟨some 1, .noMode, none, true⟩ ⟨[], none, .noMode, none, none⟩ 7 [] none none)
        [.error .network, .ok, .error (.command 11602), .ok]).2.2
      = [Cmd.getMore 7 none, Cmd.killCursors 7,
         Cmd.aggregate (build [] ⟨some 1, .noMode, none, true⟩) none] :=
  resumed_aggregate_failure_terminal ⟨some 1, .noMode, none, true⟩
    ⟨[], none, .noMode, none, none⟩ 7 none none .network (.command 11602) .ok [.ok] rfl

/-- Claim C4: one successful `Next` consuming a buffered document `d`
returns true with `d` current; when `d` is not the last of the batch
(`rest ≠ []`) the stored resume token is exactly `d`'s identifying key;
and in every case the token never reverts: whenever the server delivers
keys and PBRTs at or after the current position (`t ≤ tid`, any pending
PBRT ≥ `tid`), the new token is ≥ the old one.  Applying this at each step
gives the property for every successful `Next` sequence. -/
theorem token_tracks_current_and_monotone (rs : ResumeState) (o : CSOptions) (cid : Nat)
    (pp : Option Token) (cur : Option ChangeDoc) (d : ChangeDoc) (rest : List ChangeDoc)
    (script : List Response) (t tid : Token)
    (ht : rs.resumeToken = some t) (hd : d.id? = some tid) (hle : t ≤ tid)
    (hpp : ∀ p, pp = some p → tid ≤ p) :
    (runNext (mkEngine rs o cid (d :: rest) pp cur) script).1 = true ∧
    (runNext (mkEngine rs o cid (d :: rest) pp cur) script).2.1.current = some d ∧
    (rest ≠ [] →
      (runNext (mkEngine rs o cid (d :: rest) pp cur) script).2.1.rs.resumeToken
        = some tid) ∧
    (∃ t2, (runNext (mkEngine rs o cid (d :: rest) pp cur) script).2.1.rs.resumeToken
        = some t2 ∧ t ≤ t2) := by
  rcases rest with _ | ⟨x, xs⟩ <;> rcases pp with _ | p <;> cases script <;>
    refine ⟨?_, ?_, ?_, ?_⟩ <;>
    simp [runNext, popDoc, nextToken, mkEngine, hd] <;>
    first
      | exact hle
      | exact le_trans hle (hpp p rfl)

/-- Witness for C4: token 1 held, batch [key 2, key 3]; consuming the
first document yields token 2 ≥ 1 and current document with key 2. -/
theorem token_tracks_current_and_monotone_witness :
    (runNext (mkEngine ⟨some 1, .noMode, none, true⟩ ⟨[], none, .noMode, none, none⟩ 7
        [⟨some 2, 0⟩, ⟨some 3, 1⟩] none none) []).1 = true ∧
    (runNext (mkEngine ⟨some 1, .noMode, none, true⟩ ⟨[], none, .noMode, none, none⟩ 7
        [⟨some 2, 0⟩, ⟨some 3, 1⟩] none none) []).2.1.current = some ⟨some 2, 0⟩ ∧
    (([⟨some 3, 1⟩] : List ChangeDoc) ≠ [] →
      (runNext (mkEngine ⟨some 1, .noMode, none, true⟩ ⟨[], none, .noMode, none, none⟩ 7
          [⟨some 2, 0⟩, ⟨some 3, 1⟩] none none) []).2.1.rs.resumeToken = some 2) ∧
    (∃ t2, (runNext (mkEngine ⟨some 1, .noMode, none, true⟩ ⟨[], none, .noMode, none, none⟩ 7
        [⟨some 2, 0⟩, ⟨some 3, 1⟩] none none) []).2.1.rs.resumeToken = some t2 ∧ 1 ≤ t2) :=
  token_tracks_current_and_monotone ⟨some 1, .noMode, none, true⟩
    ⟨[], none, .noMode, none, none⟩ 7 none none ⟨some 2, 0⟩ [⟨some 3, 1⟩] [] 1 2
    rfl rfl (by decide) (fun p h => by cases h)

/-- Claim C5: PBRT forward progress, in its three observable forms.
First, construction: an initial aggregate returning an empty firstBatch
with PBRT `p` leaves `ResumeToken() = p` before any `Next` — a batch from
which zero documents were delivered.  Second, full consumption: consuming
the last buffered document overwrites the token with the batch's PBRT
`p2`, regardless of the document's own key `tid` (`p2` and `tid` are
unrelated).  Third, a single poll receiving an empty getMore batch with
PBRT `p3` stores `p3` with no error even though no document arrived. -/
theorem pbrt_forward_progress
    (o : CSOptions) (cr : CursorResult) (p : Token)
    (rs2 : ResumeState) (o2 : CSOptions) (cid2 : Nat) (cur2 : Option ChangeDoc)
    (d : ChangeDoc) (tid p2 : Token) (script2 : List Response)
    (rs3 : ResumeState) (o3 : CSOptions) (cid3 : Nat) (pp3 : Option Token)
    (cur3 : Option ChangeDoc) (cr3 : CursorResult) (p3 : Token) (srest3 : List Response)
    (h1 : cr.batch = []) (h2 : cr.pbrt = some p)
    (hd : d.id? = some tid)
    (h3 : cr3.batch = []) (h4 : cr3.pbrt = some p3) :
    (∃ e, (watch o (.cursor cr)).1 = .ok e ∧ e.rs.resumeToken = some p) ∧
    ((runNext (mkEngine rs2 o2 cid2 [d] (some p2) cur2) script2).1 = true ∧
      (runNext (mkEngine rs2 o2 cid2 [d] (some p2) cur2) script2).2.1.rs.resumeToken
        = some p2) ∧
    ((tryNext (mkEngine rs3 o3 cid3 [] pp3 cur3) (.cursor cr3 :: srest3)).2.1.rs.resumeToken
        = some p3 ∧
      (tryNext (mkEngine rs3 o3 cid3 [] pp3 cur3) (.cursor cr3 :: srest3)).2.1.err
        = none) := by
  obtain ⟨ccid, cbatch, cpbrt⟩ := cr
  obtain ⟨ccid3, cbatch3, cpbrt3⟩ := cr3
  simp only [CursorResult.mk.injEq] at h1 h2 h3 h4 ⊢
  subst h1; subst h2; subst h3; subst h4
  refine ⟨⟨_, rfl, ?_⟩, ⟨?_, ?_⟩, ?_, ?_⟩
  · simp [watch, absorbPbrt]
  · cases script2 <;> simp [runNext, popDoc, mkEngine, hd]
  · cases script2 <;> simp [runNext, popDoc, nextToken, mkEngine, hd]
  · simp [tryNext, step, deliver, absorbPbrt, mkEngine]
  · simp [tryNext, step, deliver, absorbPbrt, mkEngine]

/-- Witness for C5: initial aggregate with PBRT 42 and empty batch; last
document key 3 overwritten by PBRT 10; empty getMore poll with PBRT 99. -/
theorem pbrt_forward_progress_witness :
    (∃ e, (watch ⟨[], none, .noMode, none, none⟩ (.cursor ⟨4, [], some 42⟩)).1 = .ok e ∧
      e.rs.resumeToken = some 42) ∧
    ((runNext (mkEngine ⟨some 1, .noMode, none, true⟩ ⟨[], none, .noMode, none, none⟩ 7
        [⟨some 3, 5⟩] (some 10) none) []).1 = true ∧
      (runNext (mkEngine ⟨some 1, .noMode, none, true⟩ ⟨[], none, .noMode, none, none⟩ 7
        [⟨some 3, 5⟩] (some 10) none) []).2.1.rs.resumeToken = some 10) ∧
    ((tryNext (mkEngine ⟨some 1, .noMode, none, true⟩ ⟨[], none, .noMode, none, none⟩ 7
        [] none none) [.cursor ⟨7, [], some 99⟩]).2.1.rs.resumeToken = some 99 ∧
      (tryNext (mkEngine ⟨some 1, .noMode, none, true⟩ ⟨[], none, .noMode, none, none⟩ 7
        [] none none) [.cursor ⟨7, [], some 99⟩]).2.1.err = none) :=
  pbrt_forward_progress ⟨[], none, .noMode, none, none⟩ ⟨4, [], some 42⟩ 42
    ⟨some 1, .noMode, none, true⟩ ⟨[], none, .noMode, none, none⟩ 7 none ⟨some 3, 5⟩ 3 10 []
    ⟨some 1, .noMode, none, true⟩ ⟨[], none, .noMode, none, none⟩ 7 none none
    ⟨7, [], some 99⟩ 99 [] rfl rfl rfl rfl rfl

/-- Claim C6: a killCursors failure during resume is invisible — the
resume's own aggregate is still issued (the trace contains it), and when
that aggregate succeeds with a document, `Next` returns true and `Err()`
is none despite the failed killCursors (`fkc` arbitrary). -/
theorem killcursors_failure_invisible (rs : ResumeState) (o : CSOptions) (cid : Nat)
    (pp : Option Token) (cur : Option ChangeDoc) (f fkc : Failure) (cr : CursorResult)
    (d : ChangeDoc) (tid : Token)
    (hf : isResumable f = true) (hcr : cr.batch = [d]) (hd : d.id? = some tid) :
    (runNext (mkEngine rs o cid [] pp cur) [.error f, .error fkc, .cursor cr]).1 = true ∧
    (runNext (mkEngine rs o cid [] pp cur) [.error f, .error fkc, .cursor cr]).2.1.err
      = none ∧
    (runNext (mkEngine rs o cid [] pp cur) [.error f, .error fkc, .cursor cr]).2.2
      = [Cmd.getMore cid o.maxAwaitTimeMS, Cmd.killCursors cid,
         Cmd.aggregate (build o.userPipeline rs) none] := by
  refine ⟨?_, ?_, ?_⟩ <;>
    simp [runNext, step, deliver, popDoc, nextToken, mkEngine, hf, hcr, hd]

/-- Witness for C6: killCursors answers with error code 11601; the resume
still completes and `Next` is true with no error. -/
theorem killcursors_failure_invisible_witness :
    (runNext (mkEngine ⟨some 1, .noMode, none, true⟩ ⟨[], none, .noMode, none, none⟩ 7 [] none none)
        [.error (.command 11602), .error (.command 11601),
         .cursor ⟨9, [⟨some 2, 0⟩], none⟩]).1 = true ∧
    (runNext (mkEngine ⟨some 1, .noMode, none, true⟩ ⟨[], none, .noMode, none, none⟩ 7 [] none none)
        [.error (.command 11602), .error (.command 11601),
         .cursor ⟨9, [⟨some 2, 0⟩], none⟩]).2.1.err = none ∧
    (runNext (mkEngine ⟨some 1, .noMode, none, true⟩ ⟨[], none, .noMode, none, none⟩ 7 [] none none)
        [.error (.command 11602), .error (.command 11601),
         .cursor ⟨9, [⟨some 2, 0⟩], none⟩]).2.2
      = [Cmd.getMore 7 none, Cmd.killCursors 7,
         Cmd.aggregate (build [] ⟨some 1, .noMode, none, true⟩) none] :=
  killcursors_failure_invisible ⟨some 1, .noMode, none, true⟩ ⟨[], none, .noMode, none, none⟩
    7 none none (.command 11602) (.command 11601) ⟨9, [⟨some 2, 0⟩], none⟩ ⟨some 2, 0⟩ 2
    (by decide) rfl rfl

/-- Claim C7: a consumed change document missing its identifying key is a
terminal failure: `Next` returns false and `Err()` is set (to the
missing-resume-token error), for any remaining batch and script. -/
theorem missing_key_terminal (rs : ResumeState) (o : CSOptions) (cid : Nat)
    (pp : Option Token) (cur : Option ChangeDoc) (d : ChangeDoc)
    (rest : List ChangeDoc) (script : List Response)
    (hd : d.id? = none) :
    (runNext (mkEngine rs o cid (d :: rest) pp cur) script).1 = false ∧
    (runNext (mkEngine rs o cid (d :: rest) pp cur) script).2.1.err
      = some .missingResumeToken := by
  cases script <;> refine ⟨?_, ?_⟩ <;> simp [runNext, popDoc, mkEngine, hd]

/-- Witness for C7: a document with its `_id` projected away makes `Next`
false with the missing-resume-token error. -/
theorem missing_key_terminal_witness :
    (runNext (mkEngine ⟨some 1, .noMode, none, true⟩ ⟨[], none, .noMode, none, none⟩ 7
        [⟨none, 5⟩] none none) []).1 = false ∧
    (runNext (mkEngine ⟨some 1, .noMode, none, true⟩ ⟨[], none, .noMode, none, none⟩ 7
        [⟨none, 5⟩] none none) []).2.1.err = some .missingResumeToken :=
  missing_key_terminal ⟨some 1, .noMode, none, true⟩ ⟨[], none, .noMode, none, none⟩ 7
    none none ⟨none, 5⟩ [] [] rfl

theorem popDoc_opts (e : Engine) (d : ChangeDoc) (rest : List ChangeDoc) :
    ((popDoc e d rest).2).opts = e.opts := by
  cases hd : d.id? <;> simp [popDoc, hd]

theorem absorbPbrt_opts (e : Engine) : (absorbPbrt e).opts = e.opts := by
  cases hb : e.buffer <;> cases hp : e.pendingPbrt <;> simp [absorbPbrt, hb, hp]

theorem deliver_opts (e : Engine) (cr : CursorResult) :
    ((deliver e cr).engine).opts = e.opts := by
  obtain ⟨ccid, cbatch, cpbrt⟩ := cr
  cases cbatch with
  | nil => simp [deliver, StepOut.engine, absorbPbrt_opts]
  | cons d rest => simp [deliver, StepOut.engine, popDoc_opts]

theorem step_engine_opts (e : Engine) (r : Response) :
    ((step e r).2).engine.opts = e.opts := by
  cases hph : e.phase <;> cases r <;>
    simp only [step, hph] <;>
    (try split) <;>
    first
      | exact deliver_opts _ _
      | simp [StepOut.engine]

theorem step_cmd_respects (e : Engine) (r : Response) :
    cmdRespectsMaxAwait e.opts.maxAwaitTimeMS (step e r).1 := by
  cases hph : e.phase <;> simp [step, hph, cmdRespectsMaxAwait]

theorem runNext_nil_trace (e : Engine) : (runNext e []).2.2 = [] := by
  simp only [runNext]
  split
  · rfl
  · split <;> rfl

/-- Claim C8: on every command a `Next` call issues, the user-supplied
maxAwaitTimeMS appears as the maxTimeMS of each getMore and never on any
aggregate (and never on the construction aggregate either), for every
engine state and every response script. -/
theorem maxawait_only_on_getmore (e : Engine) (script : List Response) (cmd : Cmd)
    (o : CSOptions) (resp : Response) (cmd2 : Cmd) :
    (cmd ∈ (runNext e script).2.2 → cmdRespectsMaxAwait e.opts.maxAwaitTimeMS cmd) ∧
    (cmd2 ∈ (watch o resp).2 → cmdRespectsMaxAwait o.maxAwaitTimeMS cmd2) := by
  constructor
  · induction script generalizing e with
    | nil =>
      intro h
      rw [runNext_nil_trace] at h
      simp at h
    | cons r srest ih =>
      intro h
      simp only [runNext] at h
      split at h
      · simp at h
      · split at h
        · simp at h
        · split at h
          next b e' heq =>
            simp only [List.mem_singleton] at h
            subst h
            exact step_cmd_respects e r
          next e' heq =>
            rcases List.mem_cons.mp h with h1 | h2
            · subst h1
              exact step_cmd_respects e r
            · have hopts : e'.opts = e.opts := by
                have hs := step_engine_opts e r
                rw [heq] at hs
                simpa [StepOut.engine] using hs
              have hc := ih e' h2
              rwa [hopts] at hc
  · intro h
    simp only [watch, List.mem_singleton] at h
    subst h
    simp [cmdRespectsMaxAwait]

/-- Witness for C8: with maxAwaitTimeMS = 5, the getMore issued by a
`Next` carries maxTimeMS = 5, and the construction aggregate carries no
maxTimeMS. -/
theorem maxawait_only_on_getmore_witness :
    Cmd.getMore 7 (some 5) ∈
      (runNext (mkEngine ⟨some 1, .noMode, none, true⟩ ⟨[], none, .noMode, none, some 5⟩ 7
        [] none none) [.ok]).2.2 ∧
    cmdRespectsMaxAwait (some 5) (Cmd.getMore 7 (some 5)) ∧
    Cmd.aggregate (build [] (initialResumeState ⟨[], none, .noMode, none, some 5⟩)) none ∈
      (watch ⟨[], none, .noMode, none, some 5⟩ .ok).2 ∧
    cmdRespectsMaxAwait (some 5)
      (Cmd.aggregate (build [] (initialResumeState ⟨[], none, .noMode, none, some 5⟩)) none) :=
  ⟨by decide,
   (maxawait_only_on_getmore
      (mkEngine ⟨some 1, .noMode, none, true⟩ ⟨[], none, .noMode, none, some 5⟩ 7 [] none none)
      [.ok] (Cmd.getMore 7 (some 5)) ⟨[], none, .noMode, none, some 5⟩ .ok
      (Cmd.aggregate (build [] (initialResumeState ⟨[], none, .noMode, none, some 5⟩)) none)).1
     (by decide),
   by decide,
   (maxawait_only_on_getmore
      (mkEngine ⟨some 1, .noMode, none, true⟩ ⟨[], none, .noMode, none, some 5⟩ 7 [] none none)
      [.ok] (Cmd.getMore 7 (some 5)) ⟨[], none, .noMode, none, some 5⟩ .ok
      (Cmd.aggregate (build [] (initialResumeState ⟨[], none, .noMode, none, some 5⟩)) none)).2
     (by decide)⟩

/-- Claim C9: construction surfaces a server command failure verbatim.
When the initial aggregate (for instance a `$changeStream` issued against
a standalone deployment) is answered with a command error of code `c`,
`watch` fails with exactly that command failure — the caller sees the
server's CommandError, not a substituted client-side error. -/
theorem construction_surfaces_command_error (o : CSOptions) (c : Int) :
    (watch o (.error (.command c))).1 = Except.error (Failure.command c) := rfl

/-- Claim C10: a successful initial aggregate with a non-zero cursor id
and an empty firstBatch leaves the stream open: `ID()` is strictly
positive right after construction, and construction issued exactly the one
aggregate — in particular no killCursors closed the cursor. -/
theorem empty_batch_cursor_kept (o : CSOptions) (cr : CursorResult)
    (hcid : 0 < cr.cursorId) (hb : cr.batch = []) :
    (∃ e, (watch o (.cursor cr)).1 = .ok e ∧ 0 < e.ID) ∧
    (watch o (.cursor cr)).2
      = [Cmd.aggregate (build o.userPipeline (initialResumeState o)) none] := by
  obtain ⟨ccid, cbatch, cpbrt⟩ := cr
  simp only at hcid hb
  subst hb
  refine ⟨⟨_, rfl, ?_⟩, rfl⟩
  cases cpbrt <;> simpa [absorbPbrt, Engine.ID] using hcid

/-- Witness for C10: cursor id 1 with empty firstBatch — the stream is
open with `ID() = 1 > 0` and only the aggregate was issued. -/
theorem empty_batch_cursor_kept_witness :
    (∃ e, (watch ⟨[], none, .noMode, none, none⟩ (.cursor ⟨1, [], none⟩)).1 = .ok e ∧
      0 < e.ID) ∧
    (watch ⟨[], none, .noMode, none, none⟩ (.cursor ⟨1, [], none⟩)).2
      = [Cmd.aggregate (build [] (initialResumeState ⟨[], none, .noMode, none, none⟩)) none] :=
  empty_batch_cursor_kept ⟨[], none, .noMode, none, none⟩ ⟨1, [], none⟩ (by decide) rfl

end ChangeStream
